/-
Verification of the AI-Audio-Responsive-Production engine core.

Shallow embedding of the Python sources under src/ :
  - src/engine/failsafe.py      (FailsafeManager)
  - src/engine/mode_manager.py  (ModeManager)
  - src/engine/highlight.py     (HighlightDetector)
  - src/engine/features.py      (spectral_flux)
  - src/engine/outputs/udp_pixel_sender.py (UDPPixelSender)
  - src/engine/outputs/artnet_sender.py    (ArtNetSender)
  - src/engine/main.py / src/engine/daemon.py (pipeline loops)

Python floats are embedded as rationals (ℚ): every operation the embedded
code performs is a field operation or a comparison, so ℚ is exact where the
claims are concerned.  Bytes are embedded as natural numbers < 256 produced
by explicit `% 256` arithmetic.  Fallible Python code (raising) is embedded
with `Except`.
-/
import Mathlib

/-- Python truthiness of `x or d` for an optional float `x`:
`None or d` and `0.0 or d` both evaluate to `d`; any other float is returned
unchanged.  Used by `mode_manager.py` line 73 and `highlight.py` line 83. -/
def pyOr (x : Option ℚ) (d : ℚ) : ℚ :=
  match x with
  | none => d
  | some v => if v = 0 then d else v

/-- Exceptions the embedded code can raise. -/
inductive PyExc where
  | attributeError (cls attr : String)
  | valueError (msg : String)
deriving DecidableEq, Repr

/- ----------------------------------------------------------------- -/
/- FailsafeManager  (src/src/engine/failsafe.py)                     -/
/- ----------------------------------------------------------------- -/

/-- `FailsafeState` enum of failsafe.py lines 26-31. -/
inductive FailsafeState where
  | NORMAL
  | LAST_HOLD
  | DIM_AMBIENT
  | DIM_BLACK
deriving DecidableEq, Repr

/-- State of a `FailsafeManager` instance: configuration fields and the
mutable fields set in `__init__` (failsafe.py lines 43-67). -/
structure FailsafeManager where
  hold_seconds : ℚ
  ambient_seconds : ℚ
  black_seconds : ℚ
  ambient_intensity : ℚ
  recovery_hold_seconds : ℚ
  failure_time : Option ℚ
  recovery_time : Option ℚ
  state : FailsafeState
deriving DecidableEq, Repr

/-- `FailsafeManager.__init__` (failsafe.py lines 43-67). -/
def FailsafeManager.init (hold ambient black ambient_i recovery : ℚ) :
    FailsafeManager :=
  { hold_seconds := hold
    ambient_seconds := ambient
    black_seconds := black
    ambient_intensity := ambient_i
    recovery_hold_seconds := recovery
    failure_time := none
    recovery_time := none
    state := FailsafeState.NORMAL }

/-- `FailsafeManager.on_frame_sent` (failsafe.py lines 69-80): only a
recorded failure is cleared; a healthy manager is left untouched. -/
def FailsafeManager.on_frame_sent (m : FailsafeManager) (now : ℚ) :
    FailsafeManager :=
  match m.failure_time with
  | some _ =>
      { m with failure_time := none
               recovery_time := some now
               state := FailsafeState.NORMAL }
  | none => m

/-- `FailsafeManager.on_frame_fail` (failsafe.py lines 82-87). -/
def FailsafeManager.on_frame_fail (m : FailsafeManager) (now : ℚ) :
    FailsafeManager :=
  match m.failure_time with
  | some _ => m
  | none =>
      { m with failure_time := some now, state := FailsafeState.LAST_HOLD }

/-- `FailsafeManager.get_intensity` (failsafe.py lines 89-120); returns the
intensity together with the updated manager (the Python method mutates
`self.state`). -/
def FailsafeManager.get_intensity (m : FailsafeManager) (now : ℚ) :
    ℚ × FailsafeManager :=
  match m.failure_time with
  | none => (1, { m with state := FailsafeState.NORMAL })
  | some ft =>
    let elapsed := now - ft
    if elapsed < m.hold_seconds then
      (1, { m with state := FailsafeState.LAST_HOLD })
    else if elapsed < m.hold_seconds + m.ambient_seconds then
      (m.ambient_intensity, { m with state := FailsafeState.DIM_AMBIENT })
    else if 0 < m.black_seconds ∧
        elapsed < m.hold_seconds + m.ambient_seconds + m.black_seconds then
      let progress :=
        (elapsed - m.hold_seconds - m.ambient_seconds) / m.black_seconds
      (m.ambient_intensity * (1 - progress),
        { m with state := FailsafeState.DIM_BLACK })
    else
      (0, { m with state := FailsafeState.DIM_BLACK })

/- ----------------------------------------------------------------- -/
/- ModeManager  (src/src/engine/mode_manager.py)                     -/
/- ----------------------------------------------------------------- -/

/-- The three show modes, in the declaration order of
`ModeManager.MODES = ("IDLE", "SPEECH", "MUSIC")`. -/
inductive Mode where
  | IDLE
  | SPEECH
  | MUSIC
deriving DecidableEq, Repr

/-- Per-frame feature dictionary handed to the classifiers; the keys read by
`mode_manager.py` lines 29-33 and `highlight.py` lines 41-43. -/
structure Feat where
  rms : ℚ
  band_low : ℚ
  band_mid : ℚ
  band_high : ℚ
  flux : ℚ
  onset_density : ℚ
deriving DecidableEq, Repr

/-- The settings keys `ModeManager` reads (with `dict.get` defaults applied
by the callers in main.py / daemon.py, every key is present). -/
structure ModeSettings where
  RMS_SILENCE_THRESHOLD : ℚ
  SPEECH_MID_PROP : ℚ
  MUSIC_HIGH_PROP : ℚ
  MUSIC_ONSET_DENSITY : ℚ
  MODE_HOLD_SECONDS : ℚ
deriving DecidableEq, Repr

/-- Instance state of `ModeManager` (mode_manager.py lines 21-25). -/
structure ModeManager where
  settings : ModeSettings
  current_mode : Mode
  candidate : Option Mode
  candidate_since : Option ℚ
deriving DecidableEq, Repr

/-- `ModeManager.__init__` (mode_manager.py lines 21-25). -/
def ModeManager.init (s : ModeSettings) : ModeManager :=
  { settings := s
    current_mode := Mode.IDLE
    candidate := none
    candidate_since := none }

/-- `ModeManager._score_modes` (mode_manager.py lines 27-53), returning the
scores of (IDLE, SPEECH, MUSIC) in declaration order. -/
def ModeManager.score_modes (s : ModeSettings) (feat : Feat) : ℚ × ℚ × ℚ :=
  let mid := feat.band_mid
  let high := feat.band_high
  let rms := feat.rms
  let onset := feat.onset_density
  let idleScore : ℚ := if rms < s.RMS_SILENCE_THRESHOLD then 1 else 0
  let speechScore : ℚ :=
    if mid > s.SPEECH_MID_PROP ∧ onset < s.MUSIC_ONSET_DENSITY then
      1 + (mid - s.SPEECH_MID_PROP)
    else 0
  let musicScore : ℚ :=
    (if onset > s.MUSIC_ONSET_DENSITY ∧ high > s.MUSIC_HIGH_PROP then
      1 + (onset - s.MUSIC_ONSET_DENSITY)
    else 0) + (if high > 1/2 then 1/2 else 0)
  (idleScore, speechScore, musicScore)

/-- `max(scores.items(), key=lambda x: x[1])[0]` (mode_manager.py line 60):
Python `max` scans the items in dict insertion order (IDLE, SPEECH, MUSIC)
and replaces the running best only on a strictly larger score, so ties favor
the earlier mode. -/
def ModeManager.candidateOf (scores : ℚ × ℚ × ℚ) : Mode :=
  let best1 := (Mode.IDLE, scores.1)
  let best2 := if scores.2.1 > best1.2 then (Mode.SPEECH, scores.2.1) else best1
  let best3 := if scores.2.2 > best2.2 then (Mode.MUSIC, scores.2.2) else best2
  best3.1

/-- `ModeManager.update` (mode_manager.py lines 55-77).  Note line 73:
`now - (self._candidate_since or now)` — Python `or` replaces both `None`
and a stored `0.0` by `now` (see `pyOr`). -/
def ModeManager.update (mm : ModeManager) (feat : Feat) (now : ℚ) :
    Mode × ModeManager :=
  let scores := ModeManager.score_modes mm.settings feat
  let candidate := ModeManager.candidateOf scores
  let mm1 :=
    if some candidate ≠ mm.candidate then
      { mm with candidate := some candidate, candidate_since := some now }
    else mm
  if candidate = mm1.current_mode then
    (mm1.current_mode, mm1)
  else
    let hold := mm1.settings.MODE_HOLD_SECONDS
    if now - pyOr mm1.candidate_since now ≥ hold ∧
        candidate ≠ mm1.current_mode then
      (candidate, { mm1 with current_mode := candidate })
    else
      (mm1.current_mode, mm1)

/- ----------------------------------------------------------------- -/
/- HighlightDetector  (src/src/engine/highlight.py)                  -/
/- ----------------------------------------------------------------- -/

/-- The highlight states `STATES = ("IDLE", "HIGHLIGHT", "DROP")`. -/
inductive HState where
  | IDLE
  | HIGHLIGHT
  | DROP
deriving DecidableEq, Repr

/-- The settings keys `HighlightDetector` reads (all supplied by callers). -/
structure HighlightSettings where
  HIGHLIGHT_THRESHOLD : ℚ
  DROP_THRESHOLD : ℚ
  HIGHLIGHT_HYSTERESIS : ℚ
  HIGHLIGHT_COOLDOWN_SECONDS : ℚ
  HIGHLIGHT_WEIGHT_RMS : ℚ
  HIGHLIGHT_WEIGHT_BAND_HIGH : ℚ
  HIGHLIGHT_WEIGHT_FLUX : ℚ
deriving DecidableEq, Repr

/-- Instance state of `HighlightDetector` (highlight.py lines 27-30). -/
structure HighlightDetector where
  settings : HighlightSettings
  state : HState
  last_transition_time : Option ℚ
deriving DecidableEq, Repr

/-- `HighlightDetector.__init__` (highlight.py lines 27-30). -/
def HighlightDetector.init (s : HighlightSettings) : HighlightDetector :=
  { settings := s, state := HState.IDLE, last_transition_time := none }

/-- `HighlightDetector.compute_score` (highlight.py lines 32-63). -/
def HighlightDetector.compute_score (s : HighlightSettings) (feat : Feat) :
    ℚ :=
  let rms_norm := min 1 (feat.rms / (1/10))
  let high_norm := feat.band_high
  let flux_norm := min 1 (feat.flux / (1/2))
  let w_rms := s.HIGHLIGHT_WEIGHT_RMS
  let w_high := s.HIGHLIGHT_WEIGHT_BAND_HIGH
  let w_flux := s.HIGHLIGHT_WEIGHT_FLUX
  let total_weight := w_rms + w_high + w_flux
  let total_weight := if total_weight ≤ 0 then 1 else total_weight
  let score :=
    (w_rms * rms_norm + w_high * high_norm + w_flux * flux_norm) /
      total_weight
  min 1 (max 0 score)

/-- `HighlightDetector.update` (highlight.py lines 65-121).  Line 83 is
`self._last_transition_time = self._last_transition_time or now`, which by
Python truthiness also overwrites a stored `0.0` (see `pyOr`). -/
def HighlightDetector.update (d : HighlightDetector) (feat : Feat)
    (mode : Mode) (now : ℚ) : HState × HighlightDetector :=
  if mode ≠ Mode.MUSIC then
    (HState.IDLE, { d with state := HState.IDLE })
  else
    let lt := pyOr d.last_transition_time now
    let d1 := { d with last_transition_time := some lt }
    let score := HighlightDetector.compute_score d1.settings feat
    let threshold := d1.settings.HIGHLIGHT_THRESHOLD
    let drop_thresh := d1.settings.DROP_THRESHOLD
    let hyst := d1.settings.HIGHLIGHT_HYSTERESIS
    let cooldown := d1.settings.HIGHLIGHT_COOLDOWN_SECONDS
    let elapsed := now - lt
    let threshold_go :=
      match d1.state with
      | HState.HIGHLIGHT => threshold - hyst
      | HState.DROP => drop_thresh + hyst
      | HState.IDLE => threshold
    if elapsed < cooldown then
      (d1.state, d1)
    else
      match d1.state with
      | HState.IDLE =>
          if score ≥ threshold then
            (HState.HIGHLIGHT,
              { d1 with state := HState.HIGHLIGHT,
                        last_transition_time := some now })
          else if score < drop_thresh then
            (HState.DROP,
              { d1 with state := HState.DROP,
                        last_transition_time := some now })
          else (d1.state, d1)
      | HState.HIGHLIGHT =>
          if score < threshold_go then
            let next := if score < drop_thresh then HState.DROP else HState.IDLE
            (next, { d1 with state := next, last_transition_time := some now })
          else (d1.state, d1)
      | HState.DROP =>
          if score ≥ drop_thresh + hyst then
            (HState.IDLE,
              { d1 with state := HState.IDLE,
                        last_transition_time := some now })
          else (d1.state, d1)

/- ----------------------------------------------------------------- -/
/- Feature extraction  (src/src/engine/features.py, main.py)         -/
/- ----------------------------------------------------------------- -/

/-- The `1e-12` epsilon used throughout features.py and main.py. -/
def featEps : ℚ := 1 / 1000000000000

/-- `spectral_flux` (features.py lines 75-84) on a magnitude spectrogram
represented as the list of its frames (numpy axis=1), each frame the list of
magnitudes over frequency bins (numpy axis=0):
normalize each frame by its total (+ε), take positive-only consecutive
differences, sum over bins, and prepend an exact `0` for the first frame. -/
def spectral_flux (frames : List (List ℚ)) : List ℚ :=
  let s_norm := frames.map (fun c => c.map (fun v => v / (c.sum + featEps)))
  let flux :=
    List.zipWith
      (fun p c => (List.zipWith (fun a b => max (b - a) 0) p c).sum)
      s_norm s_norm.tail
  0 :: flux

/-- Streaming spectral flux of `_frame_features_from_buffer`
(main.py lines 158-164, identically daemon.py lines 94-100): positive-only
difference between the current magnitude spectrum and the previous snapshot,
divided by the previous total magnitude (+ε); `0` when there is no snapshot
or the shapes differ. -/
def streamingFlux (mag : List ℚ) (prev_mag : Option (List ℚ)) : ℚ :=
  match prev_mag with
  | none => 0
  | some p =>
      if p.length ≠ mag.length then 0
      else (List.zipWith (fun a b => max (b - a) 0) p mag).sum /
        (p.sum + featEps)

/-- The flux-and-snapshot projection of `_frame_features_from_buffer`
(main.py lines 129-167): an empty frame yields flux `0` and no snapshot
(line 141); otherwise the magnitude spectrum is `|rfft(frame * hann)|`
(lines 144-146), passed in abstractly as `magOf` since its transcendental
values only flow into the flux rule through `streamingFlux` and into the
band ratios, which no claim references. -/
def frame_flux_and_mag (magOf : List ℚ → List ℚ) (frame : List ℚ)
    (prev_mag : Option (List ℚ)) : ℚ × Option (List ℚ) :=
  if frame.length = 0 then (0, none)
  else
    let mag := magOf frame
    (streamingFlux mag prev_mag, some mag)

/- ----------------------------------------------------------------- -/
/- UDPPixelSender  (src/src/engine/outputs/udp_pixel_sender.py)       -/
/- ----------------------------------------------------------------- -/

/-- `struct.pack("!H", v)` for `0 ≤ v < 2^16`: two big-endian bytes. -/
def pack16 (v : ℕ) : List ℕ := [v / 256 % 256, v % 256]

/-- `struct.pack("<H", v)` for `0 ≤ v < 2^16`: two little-endian bytes. -/
def pack16le (v : ℕ) : List ℕ := [v % 256, v / 256 % 256]

/-- `struct.pack("!I", v)` for `0 ≤ v < 2^32`: four big-endian bytes. -/
def pack32 (v : ℕ) : List ℕ :=
  [v / 16777216 % 256, v / 65536 % 256, v / 256 % 256, v % 256]

/-- `_HEADER_SIZE = struct.calcsize("!HHIHH")` (udp_pixel_sender.py line 26):
two u16, one u32, two u16 — 12 bytes. -/
def headerSize : ℕ := 12

/-- `struct.pack(_HEADER_FMT, output_id & 0xFFFF, pixel_count & 0xFFFF,
frame_index & 0xFFFFFFFF, chunk_index & 0xFFFF, total_chunks & 0xFFFF)`
(udp_pixel_sender.py line 92): big-endian u16, u16, u32, u16, u16. -/
def packHeader (output_id pixel_count frame_index chunk_index total_chunks :
    ℕ) : List ℕ :=
  pack16 (output_id % 65536) ++ pack16 (pixel_count % 65536) ++
    pack32 (frame_index % 4294967296) ++ pack16 (chunk_index % 65536) ++
    pack16 (total_chunks % 65536)

/-- `math.ceil(len(payload) / max_payload_per_packet)` on naturals
(udp_pixel_sender.py line 51). -/
def ceilDiv (a b : ℕ) : ℕ := (a + b - 1) / b

/-- The packet-emission loop of `UDPPixelSender.send_frame`
(udp_pixel_sender.py lines 89-100): one packet per `chunk_index` in
`range(total_chunks)`, each the header followed by
`payload[offset : offset + mpp]`, with `offset += len(chunk)`.
The first numeric argument is the remaining iteration count. -/
def sendLoop (payload : List ℕ) (mpp output_id pixel_count frame_index
    total_chunks : ℕ) : ℕ → ℕ → ℕ → List (List ℕ)
  | 0, _, _ => []
  | fuel + 1, offset, chunk_index =>
      let chunk := (payload.drop offset).take mpp
      let header :=
        packHeader output_id pixel_count frame_index chunk_index total_chunks
      (header ++ chunk) ::
        sendLoop payload mpp output_id pixel_count frame_index total_chunks
          fuel (offset + chunk.length) (chunk_index + 1)

/-- `UDPPixelSender.send_frame` (udp_pixel_sender.py lines 54-100), returning
the list of packets built.  With `SIM_MODE` set (the `settings` module of the
repository defaults it to `True`) the payload is handed to the console
simulator and no protocol packet is built; `dry_run` only selects between
logging and `sock.sendto` and does not affect the bytes. -/
def UDPPixelSender.send_frame (simMode : Bool) (mtu : ℕ)
    (pixel_payload : List ℕ) (output_id frame_index : ℕ) : List (List ℕ) :=
  if simMode then []
  else
    let pixel_count := pixel_payload.length / 3
    let max_payload_per_packet := max 1 (mtu - headerSize)
    let total_chunks := ceilDiv pixel_payload.length max_payload_per_packet
    sendLoop pixel_payload max_payload_per_packet output_id pixel_count
      frame_index total_chunks total_chunks 0 0

/- ----------------------------------------------------------------- -/
/- ArtNetSender  (src/src/engine/outputs/artnet_sender.py)            -/
/- ----------------------------------------------------------------- -/

/-- The 8-byte ASCII id `b"Art-Net\x00"` (artnet_sender.py line 52). -/
def artnetId : List ℕ := [65, 114, 116, 45, 78, 101, 116, 0]

/-- `ArtNetSender._build_packet` (artnet_sender.py lines 38-66):
id, opcode `0x5000` little-endian, protocol version `14` big-endian,
zero sequence and physical bytes, universe little-endian, data length
big-endian, then the data bytes. -/
def ArtNetSender.build_packet (univ : ℕ) (data : List ℕ) : List ℕ :=
  artnetId ++ pack16le 20480 ++ pack16 14 ++ [0, 0] ++
    pack16le (univ % 65536) ++ pack16 (data.length % 65536) ++ data

/-- `ArtNetSender.send_dmx` (artnet_sender.py lines 68-108), returning the
list of packets built or the raised `ValueError`.  `None` data defaults to
512 zero bytes; data longer than 512 bytes raises before anything else; the
data is zero-padded to exactly 512 bytes; under `SIM_MODE` the padded bytes
go to the console simulator and no packet is built. -/
def ArtNetSender.send_dmx (simMode : Bool) (univ : ℕ)
    (dmx_data : Option (List ℕ)) : Except PyExc (List (List ℕ)) :=
  let data :=
    match dmx_data with
    | none => List.replicate 512 0
    | some d => d
  if data.length > 512 then
    Except.error (PyExc.valueError "DMX data must be at most 512 bytes")
  else
    let padded := data ++ List.replicate (512 - data.length) 0
    if simMode then Except.ok []
    else Except.ok [ArtNetSender.build_packet univ padded]

/- ----------------------------------------------------------------- -/
/- Pipeline loops  (src/src/engine/main.py, src/src/engine/daemon.py) -/
/- ----------------------------------------------------------------- -/

/-- The attribute names available on a `ModeManager` instance: the class
attributes and methods of the class body (mode_manager.py lines 13-77) plus
the instance attributes assigned in `__init__`. -/
def modeManagerAttrs : List String :=
  ["MODES", "settings", "current_mode", "_candidate", "_candidate_since",
   "_score_modes", "update"]

/-- The shared per-frame tick body of `run_analysis` (main.py lines 99-124),
`run_realtime` (main.py lines 237-260) and `DaemonLoop.run` (daemon.py lines
233-238): after `mode = mm.update(feat, now=...)` each caller evaluates
`mm.update_highlight(feat, detector, now=...)`.  `ModeManager` has no
attribute `update_highlight` (see `modeManagerAttrs`), so the lookup raises
`AttributeError` before the pixel payload for the tick is built or sent;
the `.ok` branch (returning the tick's packets) is therefore unreachable and
carries none. -/
def tickStep (mm : ModeManager) (feat : Feat) (now : ℚ) :
    ModeManager × Except PyExc (List (List ℕ)) :=
  let r := mm.update feat now
  if modeManagerAttrs.contains "update_highlight" then
    (r.2, Except.ok [])
  else
    (r.2, Except.error (PyExc.attributeError "ModeManager" "update_highlight"))

/-- The per-frame loop of `run_analysis` (main.py lines 89-124) over the
batch feature vectors, with `clock i` the wall-clock value `time.time()`
sampled at frame `i`.  Returns the packets built and the final outcome
(an uncaught exception aborts the loop). -/
def runAnalysisLoop (mm : ModeManager) (clock : ℕ → ℚ) :
    List Feat → ℕ → List (List ℕ) × Except PyExc Unit
  | [], _ => ([], Except.ok ())
  | feat :: rest, i =>
      let r := tickStep mm feat (clock i)
      match r.2 with
      | Except.error e => ([], Except.error e)
      | Except.ok pkts =>
          let tail := runAnalysisLoop r.1 clock rest (i + 1)
          (pkts ++ tail.1, tail.2)

/-- `if max_seconds is not None and (loop_start - start_time) >= max_seconds`
(main.py line 222). -/
def maxSecondsReached (maxS : Option ℚ) (elapsed : ℚ) : Bool :=
  match maxS with
  | none => false
  | some ms => elapsed ≥ ms

/-- The `while True` loop of `run_realtime` (main.py lines 218-272).
`clock` abstracts successive `time.time()` samples: iteration `k` reads
`clock (2*k)` as `loop_start` and `clock (2*k+1)` as `now`; `startT` is the
`start_time` sample taken before the loop.  `magOf` abstracts the feature
extraction `_frame_features_from_buffer` applied to the zero-padded frame
(it returns the feature vector and the new magnitude snapshot).  The numeric
recursion argument is loop fuel; the caller passes `x.length + 1`, enough for
every reachable iteration.  Returns the packets built and either the frame
count (normal break) or the uncaught exception. -/
def runRealtimeLoop
    (featOf : List ℚ → Option (List ℚ) → Feat × Option (List ℚ))
    (clock : ℕ → ℚ) (startT : ℚ) (spf : ℕ) (maxS : Option ℚ)
    (x : List ℚ) :
    ℕ → ℕ → Option (List ℚ) → ModeManager →
      List (List ℕ) × Except PyExc ℕ
  | 0, frames, _, _ => ([], Except.ok frames)
  | fuel + 1, frames, prevMag, mm =>
      let readPos := frames * spf
      let loopStart := clock (2 * frames)
      if maxSecondsReached maxS (loopStart - startT) then
        ([], Except.ok frames)
      else
        let rawFrame := (x.drop readPos).take spf
        let frame := rawFrame ++ List.replicate (spf - rawFrame.length) 0
        let fm := featOf frame prevMag
        let now := clock (2 * frames + 1)
        let r := tickStep mm fm.1 now
        match r.2 with
        | Except.error e => ([], Except.error e)
        | Except.ok pkts =>
            if x.length ≤ readPos + spf then
              (pkts, Except.ok (frames + 1))
            else
              let tail := runRealtimeLoop featOf clock startT spf maxS x
                fuel (frames + 1) fm.2 r.1
              (pkts ++ tail.1, tail.2)

/-- `run_realtime` (main.py lines 170-275) on in-memory audio `x`:
`read_pos` advances by exactly `spf` on every iteration that continues, so
it is reconstructed as `frames * spf` inside the loop. -/
def run_realtime
    (featOf : List ℚ → Option (List ℚ) → Feat × Option (List ℚ))
    (clock : ℕ → ℚ) (startT : ℚ) (spf : ℕ) (maxS : Option ℚ)
    (mm : ModeManager) (x : List ℚ) : List (List ℕ) × Except PyExc ℕ :=
  runRealtimeLoop featOf clock startT spf maxS x (x.length + 1) 0 none mm

/-- The `try: while self.running: ... except: return 1` body of
`DaemonLoop.run` (daemon.py lines 206-257).  `frameOf k` abstracts the demo
sine frame `_generate_demo_frame` of iteration `k` (its transcendental
samples only flow through `featOf`); `ticks` is the number of iterations the
cooperative `self.running` flag allows before a stop signal is observed.
Returns the exit code and the packets built. -/
def daemonLoopRun
    (featOf : List ℚ → Option (List ℚ) → Feat × Option (List ℚ))
    (frameOf : ℕ → List ℚ) (clock : ℕ → ℚ) :
    ℕ → Option (List ℚ) → ModeManager → ℕ → ℕ × List (List ℕ)
  | _, _, _, 0 => (0, [])
  | frames, prevMag, mm, ticks + 1 =>
      let frame := frameOf frames
      let fm := featOf frame prevMag
      let r := tickStep mm fm.1 (clock frames)
      match r.2 with
      | Except.error _ => (1, [])
      | Except.ok pkts =>
          let tail := daemonLoopRun featOf frameOf clock
            (frames + 1) fm.2 r.1 ticks
          (tail.1, pkts ++ tail.2)

/- ----------------------------------------------------------------- -/
/- Theorems                                                           -/
/- ----------------------------------------------------------------- -/

/-- C6: for every query time `now`, `FailsafeManager.get_intensity` is the
stated pure function of `elapsed = now - failure_onset`: healthy → `1.0`
with stage NORMAL; `elapsed < hold_seconds` → `1.0` with stage LAST_HOLD;
`hold ≤ elapsed < hold + ambient` → `ambient_intensity` with stage
DIM_AMBIENT; `black > 0` and `elapsed` still inside the black window →
`ambient_intensity` linearly interpolated down to `0` over the black window
with stage DIM_BLACK; otherwise (black disabled or fully elapsed) → `0.0`
with stage DIM_BLACK. -/
theorem C6_failsafe_intensity (m : FailsafeManager) (now : ℚ) :
    (m.failure_time = none →
      (m.get_intensity now).1 = 1 ∧
      (m.get_intensity now).2.state = FailsafeState.NORMAL) ∧
    (∀ ft, m.failure_time = some ft →
      (now - ft < m.hold_seconds →
        (m.get_intensity now).1 = 1 ∧
        (m.get_intensity now).2.state = FailsafeState.LAST_HOLD) ∧
      (m.hold_seconds ≤ now - ft ∧
          now - ft < m.hold_seconds + m.ambient_seconds →
        (m.get_intensity now).1 = m.ambient_intensity ∧
        (m.get_intensity now).2.state = FailsafeState.DIM_AMBIENT) ∧
      (m.hold_seconds ≤ now - ft ∧
          m.hold_seconds + m.ambient_seconds ≤ now - ft ∧
          0 < m.black_seconds ∧
          now - ft <
            m.hold_seconds + m.ambient_seconds + m.black_seconds →
        (m.get_intensity now).1 =
          m.ambient_intensity *
            (1 - (now - ft - m.hold_seconds - m.ambient_seconds) /
              m.black_seconds) ∧
        (m.get_intensity now).2.state = FailsafeState.DIM_BLACK) ∧
      (m.hold_seconds ≤ now - ft ∧
          m.hold_seconds + m.ambient_seconds ≤ now - ft ∧
          ¬(0 < m.black_seconds ∧
            now - ft <
              m.hold_seconds + m.ambient_seconds + m.black_seconds) →
        (m.get_intensity now).1 = 0 ∧
        (m.get_intensity now).2.state = FailsafeState.DIM_BLACK)) := by
  constructor
  · intro h
    simp only [FailsafeManager.get_intensity, h]
    exact ⟨trivial, trivial⟩
  · intro ft hft
    simp only [FailsafeManager.get_intensity, hft]
    refine ⟨?_, ?_, ?_, ?_⟩
    · intro h
      rw [if_pos h]
      exact ⟨rfl, rfl⟩
    · intro h
      rw [if_neg (not_lt.mpr h.1), if_pos h.2]
      exact ⟨rfl, rfl⟩
    · intro h
      rw [if_neg (not_lt.mpr h.1), if_neg (not_lt.mpr h.2.1),
        if_pos ⟨h.2.2.1, h.2.2.2⟩]
      exact ⟨rfl, rfl⟩
    · intro h
      rw [if_neg (not_lt.mpr h.1), if_neg (not_lt.mpr h.2.1),
        if_neg h.2.2]
      exact ⟨rfl, rfl⟩

/-- Witness for C6 at the configuration of the repository's failsafe tests:
`hold=1.5, ambient=5.0, black=15.0, ambient_intensity=0.2`, failure at `0`;
`get_intensity` at `0.5` gives `1.0` in LAST_HOLD and at `1.6` gives `0.2`
in DIM_AMBIENT. -/
theorem C6_witness :
    (((FailsafeManager.init (3/2) 5 15 (1/5) (1/2)).on_frame_fail
        0).get_intensity (1/2)).1 = 1 ∧
    (((FailsafeManager.init (3/2) 5 15 (1/5) (1/2)).on_frame_fail
        0).get_intensity (1/2)).2.state = FailsafeState.LAST_HOLD ∧
    (((FailsafeManager.init (3/2) 5 15 (1/5) (1/2)).on_frame_fail
        0).get_intensity (8/5)).1 = 1/5 ∧
    (((FailsafeManager.init (3/2) 5 15 (1/5) (1/2)).on_frame_fail
        0).get_intensity (8/5)).2.state = FailsafeState.DIM_AMBIENT := by
  have h1 := C6_failsafe_intensity
    ((FailsafeManager.init (3/2) 5 15 (1/5) (1/2)).on_frame_fail 0) (1/2)
  have h2 := C6_failsafe_intensity
    ((FailsafeManager.init (3/2) 5 15 (1/5) (1/2)).on_frame_fail 0) (8/5)
  have e1 := (h1.2 0 rfl).1 (by norm_num [FailsafeManager.init,
    FailsafeManager.on_frame_fail])
  have e2 := (h2.2 0 rfl).2.1 (by norm_num [FailsafeManager.init,
    FailsafeManager.on_frame_fail])
  exact ⟨e1.1, e1.2, e2.1, e2.2⟩

/-- C7 counterexample: the claim says calling `on_frame_sent(now)` records a
recovery timestamp for every controller state, "failing or already healthy".
On a healthy (fresh) manager `on_frame_sent` is a no-op — the body is guarded
by `if self._failure_time is not None` (failsafe.py line 76) — so no recovery
timestamp is recorded. -/
theorem C7_counterexample :
    (FailsafeManager.init (3/2) 5 15 (1/5) (1/2)).failure_time = none ∧
    ((FailsafeManager.init (3/2) 5 15 (1/5) (1/2)).on_frame_sent
        5).recovery_time = none ∧
    ¬(((FailsafeManager.init (3/2) 5 15 (1/5) (1/2)).on_frame_sent
        5).recovery_time = some 5) := by
  refine ⟨rfl, rfl, ?_⟩
  intro h
  exact Option.noConfusion h

/-- C7 amended: when a failure is recorded, `on_frame_sent(now)` clears
`failure_onset`, records the recovery timestamp `now` and forces stage
NORMAL; when already healthy it leaves the manager unchanged (no recovery
timestamp is recorded — `failure_onset` is already clear and the stage
already NORMAL); in both cases every subsequent `get_intensity` call returns
`1.0` with stage NORMAL, and leaves `failure_onset` clear, until a new
failure is reported. -/
theorem C7_amended_recovery (m : FailsafeManager) (now t : ℚ) :
    (∀ ft, m.failure_time = some ft →
      (m.on_frame_sent now).failure_time = none ∧
      (m.on_frame_sent now).recovery_time = some now ∧
      (m.on_frame_sent now).state = FailsafeState.NORMAL) ∧
    (m.failure_time = none → m.on_frame_sent now = m) ∧
    ((m.on_frame_sent now).get_intensity t).1 = 1 ∧
    ((m.on_frame_sent now).get_intensity t).2.state = FailsafeState.NORMAL ∧
    ((m.on_frame_sent now).get_intensity t).2.failure_time = none := by
  have hsent : (m.on_frame_sent now).failure_time = none := by
    cases hm : m.failure_time <;>
      simp [FailsafeManager.on_frame_sent, hm]
  refine ⟨?_, ?_, ?_⟩
  · intro ft hft
    simp [FailsafeManager.on_frame_sent, hft]
  · intro h
    simp [FailsafeManager.on_frame_sent, h]
  · simp [FailsafeManager.get_intensity, hsent]

/-- Witness for the amended C7, mirroring the repository's recovery test:
fail at `0`, recover at `0.5` — the recovery timestamp is recorded, the
stage is NORMAL and a later `get_intensity` reads `1.0`. -/
theorem C7_witness :
    (((FailsafeManager.init (3/2) 5 15 (1/5) (1/2)).on_frame_fail
        0).on_frame_sent (1/2)).failure_time = none ∧
    (((FailsafeManager.init (3/2) 5 15 (1/5) (1/2)).on_frame_fail
        0).on_frame_sent (1/2)).recovery_time = some (1/2) ∧
    (((FailsafeManager.init (3/2) 5 15 (1/5) (1/2)).on_frame_fail
        0).on_frame_sent (1/2)).state = FailsafeState.NORMAL ∧
    ((((FailsafeManager.init (3/2) 5 15 (1/5) (1/2)).on_frame_fail
        0).on_frame_sent (1/2)).get_intensity 7).1 = 1 := by
  have h := C7_amended_recovery
    ((FailsafeManager.init (3/2) 5 15 (1/5) (1/2)).on_frame_fail 0) (1/2) 7
  have h1 := h.1 0 rfl
  exact ⟨h1.1, h1.2.1, h1.2.2, h.2.2.1⟩

/-- The mode settings `run_realtime` passes to `ModeManager`, at the values
of config/settings.py. -/
def sampleModeSettings : ModeSettings :=
  { RMS_SILENCE_THRESHOLD := 1/10000
    SPEECH_MID_PROP := 9/20
    MUSIC_HIGH_PROP := 3/10
    MUSIC_ONSET_DENSITY := 2/25
    MODE_HOLD_SECONDS := 3/5 }

/-- A feature vector whose score argmax is MUSIC under
`sampleModeSettings` (onset and high-band above their thresholds). -/
def musicFeat : Feat :=
  { rms := 1/50
    band_low := 1/10
    band_mid := 1/5
    band_high := 7/10
    flux := 0
    onset_density := 1/5 }

/-- The `ModeManager` state after the first update of the C8 counterexample:
MUSIC candidate recorded at time `0.0`. -/
def mmAfterZero : ModeManager :=
  { settings := sampleModeSettings, current_mode := Mode.IDLE,
    candidate := some Mode.MUSIC, candidate_since := some 0 }

/-- C8 counterexample: the claim says that with the candidate differing from
the active mode the switch happens exactly when `now - candidate_since ≥
hold_seconds`.  Record the MUSIC candidate at `now = 0.0` (so
`candidate_since = 0.0`), update again at `now = 1.0` with `hold = 0.6`:
the claim demands a switch (`1 - 0 ≥ 0.6` and the candidate still differs
from the active mode), but line 73 of mode_manager.py computes
`now - (self._candidate_since or now)` and Python `or` treats the stored
`0.0` as unset, so the elapsed time is `0` and the mode stays IDLE. -/
theorem C8_counterexample :
    ((ModeManager.init sampleModeSettings).update musicFeat 0).2 =
      mmAfterZero ∧
    mmAfterZero.candidate = some Mode.MUSIC ∧
    mmAfterZero.candidate_since = some 0 ∧
    mmAfterZero.current_mode = Mode.IDLE ∧
    ModeManager.candidateOf (ModeManager.score_modes sampleModeSettings
      musicFeat) = Mode.MUSIC ∧
    (1 : ℚ) - 0 ≥ sampleModeSettings.MODE_HOLD_SECONDS ∧
    (mmAfterZero.update musicFeat 1).2.current_mode = Mode.IDLE ∧
    (mmAfterZero.update musicFeat 1).1 = Mode.IDLE := by
  have h1 : ((ModeManager.init sampleModeSettings).update musicFeat 0).2 =
      mmAfterZero := by
    simp [ModeManager.update, ModeManager.init, ModeManager.score_modes,
      ModeManager.candidateOf, sampleModeSettings, musicFeat, pyOr,
      mmAfterZero]
    norm_num
  have h2 : mmAfterZero.update musicFeat 1 = (Mode.IDLE, mmAfterZero) := by
    simp [ModeManager.update, ModeManager.score_modes,
      ModeManager.candidateOf, sampleModeSettings, musicFeat, pyOr,
      mmAfterZero]
    norm_num
  have h3 : ModeManager.candidateOf (ModeManager.score_modes
      sampleModeSettings musicFeat) = Mode.MUSIC := by
    simp [ModeManager.score_modes, ModeManager.candidateOf,
      sampleModeSettings, musicFeat]
    norm_num
  rw [h1, h2]
  exact ⟨rfl, rfl, rfl, rfl, h3, by norm_num [sampleModeSettings], rfl, rfl⟩

/-- C8 amended: on every update the candidate is the score argmax; whenever
it differs from the previously recorded candidate, `candidate_since` is
reset to `now` (even if the candidate equals the active mode), otherwise the
timer is kept; when the candidate equals the active mode nothing changes;
when it differs, the mode switches to the candidate exactly when
`now - candidate_since ≥ hold_seconds`, except that a recorded
`candidate_since` equal to `0.0` (or unset) is treated as unset by Python
truthiness and replaced by `now`, making the elapsed time `0` (so the switch
then occurs only if `hold_seconds ≤ 0`). -/
theorem C8_amended_switch (mm : ModeManager) (feat : Feat) (now : ℚ) :
    (some (ModeManager.candidateOf (ModeManager.score_modes mm.settings feat))
        ≠ mm.candidate →
      (mm.update feat now).2.candidate =
        some (ModeManager.candidateOf
          (ModeManager.score_modes mm.settings feat)) ∧
      (mm.update feat now).2.candidate_since = some now) ∧
    (some (ModeManager.candidateOf (ModeManager.score_modes mm.settings feat))
        = mm.candidate →
      (mm.update feat now).2.candidate_since = mm.candidate_since) ∧
    (ModeManager.candidateOf (ModeManager.score_modes mm.settings feat) =
        mm.current_mode →
      (mm.update feat now).2.current_mode = mm.current_mode) ∧
    (ModeManager.candidateOf (ModeManager.score_modes mm.settings feat) ≠
        mm.current_mode →
      ((mm.update feat now).2.current_mode =
          ModeManager.candidateOf (ModeManager.score_modes mm.settings feat)
        ↔ now - pyOr
            (if some (ModeManager.candidateOf
                (ModeManager.score_modes mm.settings feat)) ≠ mm.candidate
              then some now else mm.candidate_since) now ≥
            mm.settings.MODE_HOLD_SECONDS)) ∧
    (mm.update feat now).1 = (mm.update feat now).2.current_mode := by
  simp only [ModeManager.update]
  split_ifs <;> simp_all
  all_goals
    refine iff_of_false (fun hq => ?_) (not_le.mpr (by assumption))
    simp_all

/-- A `ModeManager` that has held a MUSIC candidate (recorded at the nonzero
time `1000`) while still in IDLE. -/
def mmHeld : ModeManager :=
  { settings := sampleModeSettings, current_mode := Mode.IDLE,
    candidate := some Mode.MUSIC, candidate_since := some 1000 }

/-- Witness for the amended C8: with `candidate_since = 1000` (nonzero) and
`hold = 0.6`, an update at `now = 1001` switches IDLE → MUSIC. -/
theorem C8_witness :
    (mmHeld.update musicFeat 1001).2.current_mode = Mode.MUSIC := by
  have hcand : ModeManager.candidateOf
      (ModeManager.score_modes mmHeld.settings musicFeat) = Mode.MUSIC := by
    simp [ModeManager.score_modes, ModeManager.candidateOf, mmHeld,
      sampleModeSettings, musicFeat]
    norm_num
  have h := (C8_amended_switch mmHeld musicFeat 1001).2.2.2.1
  rw [hcand] at h
  have h2 := h (by intro hq; exact Mode.noConfusion hq)
  exact h2.mpr (by norm_num [mmHeld, sampleModeSettings, pyOr])

/-- C9: for every `HighlightDetector` update with mode MUSIC, starting from
a stored last-transition time `lt` (the time of the most recent transition,
with `lt ≤ now` since that transition lies in the past): while
`now - lt` is below the cooldown the state (both the stored one and the
returned one) is unchanged, and any update that does change the state stores
`last_transition = now`.  The stored timer is not reset by merely being in
MUSIC mode, so the cooldown is measured from the last transition, not from
entering MUSIC. -/
theorem C9_cooldown (d : HighlightDetector) (feat : Feat) (now lt : ℚ)
    (hlt : d.last_transition_time = some lt) (hmono : lt ≤ now) :
    (now - lt < d.settings.HIGHLIGHT_COOLDOWN_SECONDS →
      (d.update feat Mode.MUSIC now).2.state = d.state ∧
      (d.update feat Mode.MUSIC now).1 = d.state) ∧
    ((d.update feat Mode.MUSIC now).2.state ≠ d.state →
      (d.update feat Mode.MUSIC now).2.last_transition_time = some now) := by
  obtain ⟨ds, dstate, dlast⟩ := d
  dsimp only at hlt
  subst hlt
  cases dstate <;>
    simp only [HighlightDetector.update] <;>
    by_cases hz : lt = 0 <;>
    simp only [pyOr, hz, reduceIte] <;>
    split_ifs <;> simp_all <;> try linarith

/-- The highlight settings at the values of config/settings.py. -/
def sampleHighlightSettings : HighlightSettings :=
  { HIGHLIGHT_THRESHOLD := 13/20
    DROP_THRESHOLD := 1/4
    HIGHLIGHT_HYSTERESIS := 2/25
    HIGHLIGHT_COOLDOWN_SECONDS := 3/10
    HIGHLIGHT_WEIGHT_RMS := 3/10
    HIGHLIGHT_WEIGHT_BAND_HIGH := 3/10
    HIGHLIGHT_WEIGHT_FLUX := 2/5 }

/-- A detector that transitioned to HIGHLIGHT at time `1000`. -/
def hdHot : HighlightDetector :=
  { settings := sampleHighlightSettings, state := HState.HIGHLIGHT,
    last_transition_time := some 1000 }

/-- Witness for C9: `0.05` seconds after the transition (cooldown `0.3`)
a MUSIC update leaves the HIGHLIGHT state untouched. -/
theorem C9_witness :
    (hdHot.update musicFeat Mode.MUSIC (20001/20)).2.state =
      HState.HIGHLIGHT ∧
    (hdHot.update musicFeat Mode.MUSIC (20001/20)).1 = HState.HIGHLIGHT := by
  have h := (C9_cooldown hdHot musicFeat (20001/20) 1000 rfl
    (by norm_num)).1 (by norm_num [hdHot, sampleHighlightSettings])
  exact h

/-- C10: the first frame's spectral flux is exactly `0` — in batch
extraction `spectral_flux` prepends an exact `0` for the first frame, and in
the streaming per-frame path the flux is `0` whenever there is no previous
magnitude snapshot or the snapshot's shape does not match the current
spectrum. -/
theorem C10_first_flux_zero :
    (∀ frames : List (List ℚ), (spectral_flux frames).head? = some 0) ∧
    (∀ (magOf : List ℚ → List ℚ) (frame : List ℚ)
        (prev : Option (List ℚ)),
      (prev = none ∨ ∃ p, prev = some p ∧ p.length ≠ (magOf frame).length) →
      (frame_flux_and_mag magOf frame prev).1 = 0) := by
  constructor
  · intro frames
    rfl
  · intro magOf frame prev h
    unfold frame_flux_and_mag
    split_ifs with hf
    · rfl
    · rcases h with h | ⟨p, hp, hlen⟩
      · simp [streamingFlux, h]
      · simp only [streamingFlux, hp]
        rw [if_pos hlen]

/-- Witness for C10: a concrete two-frame spectrogram and a concrete
streaming first frame (no snapshot). -/
theorem C10_witness :
    (spectral_flux [[1, 2], [3, 4]]).head? = some 0 ∧
    (frame_flux_and_mag (fun _ => [1]) [5] none).1 = 0 := by
  exact ⟨C10_first_flux_zero.1 [[1, 2], [3, 4]],
    C10_first_flux_zero.2 (fun _ => [1]) [5] none (Or.inl rfl)⟩

/-- C5: `send_dmx` raises a `ValueError` if and only if the supplied DMX
data exceeds 512 bytes (in simulator mode too, since the check precedes the
simulator branch); for data of length at most 512 the built packet is the
8-byte ASCII preamble, the 16-bit opcode bytes `[0, 80]` (0x5000
little-endian), the 16-bit protocol version 14 as `[0, 14]`, zero sequence
and physical bytes, the 16-bit universe, the 16-bit big-endian length
`[2, 0]` (= 512), then the channel data zero-padded to exactly 512 bytes
with the original data intact as its prefix — no truncation. -/
theorem C5_dmx (univ : ℕ) (data : List ℕ) :
    (∀ simMode, (∃ e, ArtNetSender.send_dmx simMode univ (some data) =
        Except.error e) ↔ 512 < data.length) ∧
    (data.length ≤ 512 →
      ArtNetSender.send_dmx false univ (some data) =
        Except.ok [artnetId ++ [0, 80] ++ [0, 14] ++ [0, 0] ++
          pack16le (univ % 65536) ++ [2, 0] ++
          (data ++ List.replicate (512 - data.length) 0)] ∧
      (data ++ List.replicate (512 - data.length) 0).length = 512 ∧
      (data ++ List.replicate (512 - data.length) 0).take data.length =
        data ∧
      artnetId.length = 8) := by
  constructor
  · intro simMode
    cases simMode <;>
      unfold ArtNetSender.send_dmx <;>
      by_cases h : 512 < data.length <;>
      simp [h]
  · intro hle
    have hlen : (data ++ List.replicate (512 - data.length) 0).length =
        512 := by
      simp [List.length_append, List.length_replicate]
      omega
    refine ⟨?_, hlen, by simp, by rfl⟩
    simp only [ArtNetSender.send_dmx, ArtNetSender.build_packet]
    rw [if_neg (by omega)]
    simp only [Bool.false_eq_true, if_false, hlen]
    norm_num [pack16, pack16le]

/-- Witness for C5: a one-byte payload encodes with 511 padding zeros, and
a 513-byte payload raises. -/
theorem C5_witness :
    ArtNetSender.send_dmx false 1 (some [7]) =
      Except.ok [artnetId ++ [0, 80] ++ [0, 14] ++ [0, 0] ++
        pack16le (1 % 65536) ++ [2, 0] ++
        ([7] ++ List.replicate (512 - [7].length) 0)] ∧
    (∃ e, ArtNetSender.send_dmx false 1 (some (List.replicate 513 0)) =
      Except.error e) := by
  exact ⟨((C5_dmx 1 [7]).2 (by norm_num)).1,
    ((C5_dmx 1 (List.replicate 513 0)).1 false).mpr
      (by rw [List.length_replicate]; norm_num)⟩

lemma packHeader_length (a b c d e : ℕ) :
    (packHeader a b c d e).length = 12 := by
  simp [packHeader, pack16, pack32]

lemma sendLoop_length (payload : List ℕ) (mpp oid pc fi tc : ℕ) :
    ∀ k offset ci,
      (sendLoop payload mpp oid pc fi tc k offset ci).length = k := by
  intro k
  induction k with
  | zero => intro offset ci; rfl
  | succ n ih => intro offset ci; simp [sendLoop, ih]

lemma chunk_length_eq (payload : List ℕ) (mpp offset : ℕ) :
    ((payload.drop offset).take mpp).length =
      min mpp (payload.length - offset) := by
  simp [List.length_take, List.length_drop]

lemma drop_offset_chunk (payload : List ℕ) (mpp offset : ℕ) :
    payload.drop (offset + ((payload.drop offset).take mpp).length) =
      payload.drop (offset + mpp) := by
  rcases Nat.le_total mpp (payload.length - offset) with hc | hc
  · rw [chunk_length_eq, min_eq_left hc]
  · by_cases h : offset + mpp ≤ payload.length
    · rw [chunk_length_eq, min_eq_right hc]
      congr 1
      omega
    · rw [List.drop_eq_nil_of_le
        (by rw [chunk_length_eq, min_eq_right hc]; omega),
        List.drop_eq_nil_of_le (by omega)]

lemma sendLoop_flatten (payload : List ℕ) (mpp oid pc fi tc : ℕ) :
    ∀ k offset ci, payload.length ≤ offset + k * mpp →
      ((sendLoop payload mpp oid pc fi tc k offset ci).map
        (fun p => p.drop headerSize)).flatten = payload.drop offset := by
  intro k
  induction k with
  | zero =>
      intro offset ci h
      rw [List.drop_eq_nil_of_le (by omega)]
      rfl
  | succ n ih =>
      intro offset ci h
      simp only [sendLoop, List.map_cons, List.flatten_cons]
      have hdrop : (packHeader oid pc fi ci tc ++
          (payload.drop offset).take mpp).drop headerSize =
          (payload.drop offset).take mpp := by
        rw [show headerSize = (packHeader oid pc fi ci tc).length by
          rw [packHeader_length]; rfl]
        exact List.drop_left _ _
      rw [hdrop]
      have hexp : (n + 1) * mpp = n * mpp + mpp := by ring
      have hbound : payload.length ≤
          offset + ((payload.drop offset).take mpp).length + n * mpp := by
        rcases Nat.le_total mpp (payload.length - offset) with hc | hc
        · rw [chunk_length_eq, min_eq_left hc]
          omega
        · rw [chunk_length_eq, min_eq_right hc]
          omega
      rw [ih (offset + ((payload.drop offset).take mpp).length) (ci + 1)
        hbound]
      rw [drop_offset_chunk]
      have hsplit : List.drop (offset + mpp) payload =
          List.drop mpp (List.drop offset payload) := by
        rw [List.drop_drop]
      rw [hsplit, List.take_append_drop]

lemma sendLoop_getElem (payload : List ℕ) (mpp oid pc fi tc : ℕ) :
    ∀ k offset ci j, j < k →
      (sendLoop payload mpp oid pc fi tc k offset ci)[j]? =
        some (packHeader oid pc fi (ci + j) tc ++
          ((payload.drop offset).drop (j * mpp)).take mpp) := by
  intro k
  induction k with
  | zero => intro offset ci j hj; omega
  | succ n ih =>
      intro offset ci j hj
      cases j with
      | zero => simp [sendLoop]
      | succ m =>
          simp only [sendLoop, List.getElem?_cons_succ]
          rw [ih (offset + ((payload.drop offset).take mpp).length) (ci + 1)
            m (by omega)]
          rw [drop_offset_chunk]
          rw [List.drop_drop, List.drop_drop]
          have h1 : ci + 1 + m = ci + (m + 1) := by omega
          have h2 : offset + mpp + m * mpp = offset + (m + 1) * mpp := by
            ring
          rw [h1, h2]

lemma le_ceilDiv_mul (a b : ℕ) (hb : 0 < b) : a ≤ ceilDiv a b * b := by
  have h := le_smul_ceilDiv (α := ℕ) (β := ℕ) hb (b := a)
  simpa [ceilDiv, Nat.ceilDiv_eq_add_pred_div, smul_eq_mul,
    Nat.mul_comm] using h

lemma ceilDiv_cast (L mpp : ℕ) (hm : 0 < mpp) (hL : 0 < L) :
    ((ceilDiv L mpp : ℕ) : ℤ) = ⌈(L : ℚ) / (mpp : ℚ)⌉ := by
  have hub : ceilDiv L mpp * mpp ≤ L + mpp - 1 := Nat.div_mul_le_self _ _
  have hn1 : 1 ≤ ceilDiv L mpp := by
    rw [ceilDiv, Nat.one_le_div_iff hm]
    omega
  have hlow : (ceilDiv L mpp - 1) * mpp < L := by
    rw [Nat.sub_mul, one_mul]
    omega
  have hle : L ≤ ceilDiv L mpp * mpp := le_ceilDiv_mul L mpp hm
  symm
  rw [Int.ceil_eq_iff]
  constructor
  · have h' : ((ceilDiv L mpp - 1 : ℕ) : ℚ) * (mpp : ℚ) < (L : ℚ) := by
      exact_mod_cast hlow
    rw [Nat.cast_sub hn1, Nat.cast_one] at h'
    rw [lt_div_iff₀ (by exact_mod_cast hm)]
    push_cast
    linarith
  · rw [div_le_iff₀ (by exact_mod_cast hm)]
    push_cast
    exact_mod_cast hle

/-- C3 counterexample: the claim says every packet begins with a 10-byte
header.  The header format `!HHIHH` (u16, u16, u32, u16, u16, all
big-endian) is 12 bytes, so stripping 10 bytes from a concrete packet
leaves two header bytes glued to the front of the RGB payload.  Shown on
`send_frame` of the 3-byte payload `[9, 9, 9]` with `mtu = 1400`,
`output_id = 1`, `frame_index = 0`: the single emitted packet is the
12-byte header `[0,1, 0,1, 0,0,0,0, 0,0, 0,1]` followed by `[9, 9, 9]`,
and its bytes after position 10 are not the payload. -/
theorem C3_counterexample :
    (UDPPixelSender.send_frame false 1400 [9, 9, 9] 1 0)[0]? =
      some [0, 1, 0, 1, 0, 0, 0, 0, 0, 0, 0, 1, 9, 9, 9] ∧
    ¬(([0, 1, 0, 1, 0, 0, 0, 0, 0, 0, 0, 1, 9, 9, 9] : List ℕ).drop 10 =
      [9, 9, 9]) ∧
    (packHeader 1 1 0 0 1).length = 12 := by
  decide

/-- C3 amended: every pixel-protocol packet begins with a 12-byte header
(`struct.calcsize("!HHIHH") = 12`) consisting of the fields
output_id:16, pixel_count:16, frame_index:32, chunk_index:16,
total_chunks:16 packed in network (big-endian) byte order — see
`packHeader` — followed by the raw RGB chunk payload. -/
theorem C3_pixel_header (mtu : ℕ) (payload : List ℕ) (oid fi j : ℕ)
    (hj : j < ceilDiv payload.length (max 1 (mtu - headerSize))) :
    (UDPPixelSender.send_frame false mtu payload oid fi)[j]? =
      some (packHeader oid (payload.length / 3) fi j
          (ceilDiv payload.length (max 1 (mtu - headerSize))) ++
        (payload.drop (j * max 1 (mtu - headerSize))).take
          (max 1 (mtu - headerSize))) ∧
    (packHeader oid (payload.length / 3) fi j
        (ceilDiv payload.length (max 1 (mtu - headerSize)))).length = 12 := by
  constructor
  · simp only [UDPPixelSender.send_frame, Bool.false_eq_true, if_false]
    have h := sendLoop_getElem payload (max 1 (mtu - headerSize)) oid
      (payload.length / 3) fi
      (ceilDiv payload.length (max 1 (mtu - headerSize)))
      (ceilDiv payload.length (max 1 (mtu - headerSize))) 0 0 j hj
    simpa using h
  · exact packHeader_length _ _ _ _ _

/-- Witness for the amended C3 at the counterexample's concrete packet. -/
theorem C3_witness :
    (UDPPixelSender.send_frame false 1400 [9, 9, 9] 1 0)[0]? =
      some (packHeader 1 (([9, 9, 9] : List ℕ).length / 3) 0 0
          (ceilDiv ([9, 9, 9] : List ℕ).length (max 1 (1400 - headerSize))) ++
        (([9, 9, 9] : List ℕ).drop (0 * max 1 (1400 - headerSize))).take
          (max 1 (1400 - headerSize))) := by
  exact (C3_pixel_header 1400 [9, 9, 9] 1 0 0 (by decide)).1

/-- C4: for every payload of length `L ≥ 1` and every mtu `M`, `send_frame`
emits exactly `⌈L / max(1, M - header_size)⌉` chunk packets, and the chunks
are contiguous in-order slices of the payload: concatenating the per-packet
data portions (header stripped) reconstructs the payload exactly. -/
theorem C4_chunk_reassembly (mtu : ℕ) (payload : List ℕ) (oid fi : ℕ)
    (h : 1 ≤ payload.length) :
    ((UDPPixelSender.send_frame false mtu payload oid fi).length : ℤ) =
      ⌈(payload.length : ℚ) / ((max 1 (mtu - headerSize) : ℕ) : ℚ)⌉ ∧
    ((UDPPixelSender.send_frame false mtu payload oid fi).map
      (fun p => p.drop headerSize)).flatten = payload := by
  have hmpp : 0 < max 1 (mtu - headerSize) :=
    Nat.lt_of_lt_of_le Nat.zero_lt_one (Nat.le_max_left _ _)
  constructor
  · simp only [UDPPixelSender.send_frame, Bool.false_eq_true, if_false]
    rw [sendLoop_length]
    exact ceilDiv_cast _ _ hmpp h
  · simp only [UDPPixelSender.send_frame, Bool.false_eq_true, if_false]
    have hfl := sendLoop_flatten payload (max 1 (mtu - headerSize)) oid
      (payload.length / 3) fi
      (ceilDiv payload.length (max 1 (mtu - headerSize)))
      (ceilDiv payload.length (max 1 (mtu - headerSize))) 0 0
      (by simpa using le_ceilDiv_mul payload.length _ hmpp)
    simpa using hfl

/-- Witness for C4: a 4-byte payload with `mtu = 13` gives
`max(1, 13 - 12) = 1` byte per chunk, hence 4 packets, and reassembly. -/
theorem C4_witness :
    ((UDPPixelSender.send_frame false 13 [1, 2, 3, 4] 0 0).length : ℤ) =
      ⌈(([1, 2, 3, 4] : List ℕ).length : ℚ) /
        ((max 1 (13 - headerSize) : ℕ) : ℚ)⌉ ∧
    ((UDPPixelSender.send_frame false 13 [1, 2, 3, 4] 0 0).map
      (fun p => p.drop headerSize)).flatten = [1, 2, 3, 4] := by
  exact C4_chunk_reassembly 13 [1, 2, 3, 4] 0 0 (by decide)

lemma tickStep_error (mm : ModeManager) (feat : Feat) (now : ℚ) :
    (tickStep mm feat now).2 =
      Except.error (PyExc.attributeError "ModeManager" "update_highlight") := by
  rfl

lemma runAnalysisLoop_packets (clock : ℕ → ℚ) :
    ∀ (feats : List Feat) (mm : ModeManager) (i : ℕ),
      (runAnalysisLoop mm clock feats i).1 = [] := by
  intro feats mm i
  cases feats with
  | nil => rfl
  | cons f rest => simp [runAnalysisLoop, tickStep_error]

lemma runRealtimeLoop_packets
    (featOf : List ℚ → Option (List ℚ) → Feat × Option (List ℚ))
    (clock : ℕ → ℚ) (startT : ℚ) (spf : ℕ) (maxS : Option ℚ) (x : List ℚ) :
    ∀ (fuel frames : ℕ) (prevMag : Option (List ℚ)) (mm : ModeManager),
      (runRealtimeLoop featOf clock startT spf maxS x fuel frames prevMag
        mm).1 = [] := by
  intro fuel frames prevMag mm
  cases fuel with
  | zero => rfl
  | succ n =>
      simp only [runRealtimeLoop]
      cases hB : maxSecondsReached maxS (clock (2 * frames) - startT) with
      | true => simp
      | false => simp [tickStep_error]

/-- C1: for fixed audio input, feature extraction, configuration snapshot
and initial classifier state, the emitted packet bytes of `run_realtime`
and of the per-frame loop of `run_analysis` are identical across any two
runs, whatever wall-clock samples (`clock`, `start_time`) each run observes:
the output depends only on the input and configuration.  (The property holds
degenerately: every run that would emit a packet first raises the
`AttributeError` documented by C2, so both runs emit the same — empty —
byte sequence.) -/
theorem C1_determinism
    (featOf : List ℚ → Option (List ℚ) → Feat × Option (List ℚ))
    (spf : ℕ) (maxS : Option ℚ) (mm : ModeManager) (x : List ℚ)
    (clock1 clock2 : ℕ → ℚ) (start1 start2 : ℚ)
    (feats : List Feat) (mmA : ModeManager) (iA : ℕ) :
    (run_realtime featOf clock1 start1 spf maxS mm x).1 =
      (run_realtime featOf clock2 start2 spf maxS mm x).1 ∧
    (runAnalysisLoop mmA clock1 feats iA).1 =
      (runAnalysisLoop mmA clock2 feats iA).1 := by
  constructor
  · rw [run_realtime, run_realtime, runRealtimeLoop_packets,
      runRealtimeLoop_packets]
  · rw [runAnalysisLoop_packets, runAnalysisLoop_packets]

/-- C2: `ModeManager` defines no attribute `update_highlight`, yet the
highlight step of every loop calls `mm.update_highlight(...)`; hence, on any
invocation that processes at least one frame (`run_analysis` with a
nonempty frame list; `run_realtime` whose `max_seconds` bound does not
expire before the first tick), the loop raises `AttributeError` on the
first processed frame before any output frame is sent, and
`DaemonLoop.run` catches the exception and returns exit code 1 with no
packet sent. -/
theorem C2_missing_update_highlight
    (feats : List Feat) (hne : feats ≠ []) (mmA : ModeManager)
    (clockA : ℕ → ℚ) (iA : ℕ)
    (featOf : List ℚ → Option (List ℚ) → Feat × Option (List ℚ))
    (clock : ℕ → ℚ) (startT : ℚ) (spf : ℕ) (maxS : Option ℚ)
    (mm : ModeManager) (x : List ℚ)
    (hrun : ∀ ms, maxS = some ms → clock 0 - startT < ms)
    (featOfD : List ℚ → Option (List ℚ) → Feat × Option (List ℚ))
    (frameOf : ℕ → List ℚ) (clockD : ℕ → ℚ) (mmD : ModeManager)
    (prevMagD : Option (List ℚ)) (ticks : ℕ) (hticks : 1 ≤ ticks) :
    modeManagerAttrs.contains "update_highlight" = false ∧
    runAnalysisLoop mmA clockA feats iA =
      ([], Except.error (PyExc.attributeError "ModeManager"
        "update_highlight")) ∧
    run_realtime featOf clock startT spf maxS mm x =
      ([], Except.error (PyExc.attributeError "ModeManager"
        "update_highlight")) ∧
    daemonLoopRun featOfD frameOf clockD 0 prevMagD mmD ticks = (1, []) := by
  refine ⟨rfl, ?_, ?_, ?_⟩
  · cases feats with
    | nil => exact absurd rfl hne
    | cons f rest => simp [runAnalysisLoop, tickStep_error]
  · have hstop : maxSecondsReached maxS (clock (2 * 0) - startT) = false := by
      cases hm : maxS with
      | none => rfl
      | some ms =>
          simp only [maxSecondsReached]
          exact decide_eq_false (not_le.mpr (hrun ms hm))
    rw [run_realtime]
    simp only [runRealtimeLoop, hstop]
    simp [tickStep_error]
  · cases ticks with
    | zero => omega
    | succ k => simp [daemonLoopRun, tickStep_error]

/-- Witness for C2 at concrete inputs: one batch frame, empty in-memory
real-time audio (still zero-padded into a first frame), one daemon tick. -/
theorem C2_witness :
    runAnalysisLoop (ModeManager.init sampleModeSettings) (fun _ => 1000)
      [musicFeat] 0 =
      ([], Except.error (PyExc.attributeError "ModeManager"
        "update_highlight")) ∧
    run_realtime (fun _ _ => (musicFeat, none)) (fun _ => 1000) 0 1470 none
      (ModeManager.init sampleModeSettings) [] =
      ([], Except.error (PyExc.attributeError "ModeManager"
        "update_highlight")) ∧
    daemonLoopRun (fun _ _ => (musicFeat, none)) (fun _ => [])
      (fun _ => 1000) 0 none (ModeManager.init sampleModeSettings) 1 =
      (1, []) := by
  have h := C2_missing_update_highlight [musicFeat] (by simp)
    (ModeManager.init sampleModeSettings) (fun _ => 1000) 0
    (fun _ _ => (musicFeat, none)) (fun _ => 1000) 0 1470 none
    (ModeManager.init sampleModeSettings) []
    (fun ms hms => by cases hms)
    (fun _ _ => (musicFeat, none)) (fun _ => []) (fun _ => 1000)
    (ModeManager.init sampleModeSettings) none 1 (le_refl 1)
  exact ⟨h.2.1, h.2.2.1, h.2.2.2⟩
